import Mathlib

/-!
Shallow embedding of the `one-build` image builder (files `builder.py` and
`cache.py`): the builder strategies (`JustApp`, `Python`, `Node`), the
strategy factory `From`, and the registry-backed layer cache (`Registry`).

External collaborators (the filesystem context, `hashlib.sha256`,
`pip wheel`, `zipfile`/`json` parsing, the containerregistry transport and
`append.Layer`) are modelled as explicit parameters or parsed data, while
every decision made by the repository's own code (control flow, string
construction, ordering, cache keys, error paths) is translated directly
from the source.
-/

namespace OneBuild

/-- The Source Context collaborator (`context.py`, consumed via
`ListFiles`/`GetFile`/`Contains`): an ordered list of (relative path,
content bytes) pairs.  Contents are modelled as Lean strings standing for
raw byte strings. -/
structure Ctx where
  files : List (String × String)
deriving DecidableEq, Repr

/-- `ctx.ListFiles()`: the ordered file names of the context. -/
def Ctx.ListFiles (ctx : Ctx) : List String :=
  ctx.files.map Prod.fst

/-- `ctx.GetFile(name)`: the content bytes of a context file. -/
def Ctx.GetFile (ctx : Ctx) (name : String) : Option String :=
  ctx.files.lookup name

/-- `ctx.Contains(name)`: marker-file detection used by the factory. -/
def Ctx.Contains (ctx : Ctx) (name : String) : Bool :=
  ctx.ListFiles.contains name

/-- `s.startswith(p)` on byte strings, phrased over the character lists of
the Lean strings. -/
def strStartsWith (s p : String) : Bool :=
  p.data.isPrefixOf s.data

/-- `s.endswith(p)` on byte strings, phrased over the character lists of
the Lean strings. -/
def strEndsWith (s p : String) : Bool :=
  p.data.isSuffixOf s.data

/-- `os.path.join(dir, name)` for the two-argument uses in `builder.py`:
an absolute second component discards the first; otherwise the components
are joined with exactly one separator (no separator added when `dir`
already ends in one, as with `usr/local/lib/python2.7/dist-packages/`). -/
def pyJoin (dir name : String) : String :=
  if strStartsWith name "/" then name
  else if strEndsWith dir "/" then dir ++ name
  else dir ++ "/" ++ name

/-- One `tarfile.TarInfo` record together with the bytes written for it.
`tarfile.TarInfo(name)` defaults `mode` to `0o644` and `mtime` to `0`;
`builder.py` always sets `size = len(content)` explicitly and sets
`mode = 0o777` only for entry-point shims. -/
structure TarEntry where
  name : String
  size : Nat
  mode : Nat
  mtime : Nat
  content : String
deriving DecidableEq, Repr

/-- The bytes produced by `tarfile.open(fileobj=buf, mode='w:gz')`.
`mode='w:gz'` wraps the tar stream in `gzip.GzipFile` constructed without
an explicit `mtime`, so the gzip member header embeds `int(time.time())`
at the moment the archive is opened (bytes 4..7 of the stream); the tar
records that follow are a deterministic function of the entries.  Two
blobs are byte-identical iff the embedded header time and the entry
sequence agree. -/
structure GzipBlob where
  mtime : Nat
  entries : List TarEntry
deriving DecidableEq, Repr

/-- Python exceptions raised (directly or by collaborators) along the
control paths of `builder.py`. -/
inductive PyErr where
  | exception : String → PyErr
  | typeError : String → PyErr
  | valueError : String → PyErr
  | keyError : String → PyErr
  | calledProcessError : String → PyErr
deriving DecidableEq, Repr

/-- A docker image value: either an opaque base reference or the result of
`append.Layer(base, layer_bytes)` (the Image Appender collaborator from
`containerregistry`), which never mutates `base` and always yields a new
value. -/
inductive Image where
  | base : String → Image
  | appendLayer : Image → GzipBlob → Image
deriving DecidableEq, Repr

/-- `JustApp.BuildAppLayer` (also inherited by `Python` and `Node`):
iterates `ctx.ListFiles()` in order, adds each file under
`os.path.join('app', name)` with `info.size = len(content)` and default
`TarInfo` mode/mtime, all inside a `w:gz` archive opened at wall-clock
second `now`.  (`GetFile` succeeds for every name listed by the context;
`getD ""` is never exercised.) -/
def JustApp.BuildAppLayer (ctx : Ctx) (now : Nat) : GzipBlob :=
  { mtime := now
    entries := ctx.ListFiles.map fun name =>
      let content := (ctx.GetFile name).getD ""
      { name := pyJoin "app" name
        size := content.length
        mode := 420
        mtime := 0
        content := content } }

/-- `JustApp.CreatePackageBase`: installs nothing, returns the base. -/
def JustApp.CreatePackageBase (base_image : Image) : Image :=
  base_image

/-- The module-level constant `_PYTHON_NAMESPACE` in `builder.py`. -/
def PYTHON_NAMESPACE : String := "python-requirements-cache"

/-- The state of the remote registry behind the `Registry` cache: a map
from tag location to the image pushed there, most recent push first. -/
abbrev RegState : Type := List (String × Image)

/-- `cache.Registry` construction data (`repo`, plus the transport
configuration `threads`/`mount` that the core treats as opaque; creds and
transport themselves are external collaborators with no bearing on key
computation). -/
structure Registry where
  repo : String
  threads : Nat
  mount : List String
deriving DecidableEq, Repr

/-- `Registry._tag(base_image, namespace, checksum)`: the fingerprint is
`checksum` alone (the `base_image.digest()` component is a TODO in the
source and not used), and the location is
`'{base}/{namespace}:{tag}'.format(base=repo, namespace=ns,
tag=sha256(fingerprint).hexdigest())`.  The external `hashlib.sha256(...)
.hexdigest()` is the parameter `H`.  `base_image` is accepted, as in the
source, but never read. -/
def Registry.tag (r : Registry) (H : String → String) (base_image : Image)
    (ns checksum : String) : String :=
  r.repo ++ "/" ++ ns ++ ":" ++ H checksum

/-- `Registry.Get`: computes the tag and checks existence in the registry
(`img.exists()`); a present tag is returned as the cached image, absence
is `None` (a miss, not an error). -/
def Registry.Get (r : Registry) (H : String → String) (st : RegState)
    (base_image : Image) (ns checksum : String) : Option Image :=
  st.lookup (r.tag H base_image ns checksum)

/-- `Registry.Store`: computes the tag and pushes the caller-supplied image
`value` there (`docker_session.Push` + `session.upload(value)`).  The
Python method body has no `return` statement, so its value is `None`:
the second component records what `Store` returns to its caller. -/
def Registry.Store (r : Registry) (H : String → String) (st : RegState)
    (base_image : Image) (ns checksum : String) (value : Image) :
    RegState × Option Image :=
  ((r.tag H base_image ns checksum, value) :: st, none)

/-- One resolved wheel as `builder.py` consumes it: the `.whl` archive
members (`zipfile.ZipFile.namelist()` with their bytes) and the
`python.commands` → `wrap_console` script table parsed out of
`metadata.json` by the external `zipfile`/`json` collaborators (`none`
when `metadata['extensions']` or its `python.commands` key is absent,
in which case `_AddWHLScripts` returns before creating any script). -/
structure Whl where
  filename : String
  members : List (String × String)
  scripts : Option (List (String × String))
deriving DecidableEq, Repr

/-- `Python._AddWHLFiles`: every zip member is re-rooted under
`usr/local/lib/python2.7/dist-packages/` with default `TarInfo`
permissions and `size = len(content)`. -/
def Python.addWHLFiles (whl : Whl) : List TarEntry :=
  whl.members.map fun p =>
    { name := pyJoin "usr/local/lib/python2.7/dist-packages/" p.1
      size := p.2.length
      mode := 420
      mtime := 0
      content := p.2 }

/-- The interpolated shim source of `_AddWHLScripts`:
`content = "...from {module} import {obj} ... sys.exit(run())".format(...)`.
Note the generated call is the literal `run()`, independent of `obj`. -/
def shimContent (module obj : String) : String :=
  "#!/usr/bin/python\n\n# -*- coding: utf-8 -*-\nimport re\nimport sys\n\nfrom "
    ++ module ++ " import " ++ obj
    ++ "\n\nif __name__ == '__main__':\n    sys.argv[0] = re.sub(r'(-script\\.pyw?|\\.exe)?$', '', sys.argv[0])\n    sys.exit(run())\n"

/-- Splitting a character list at every occurrence of `c`; an empty list
yields one empty field, as Python's `str.split` with an explicit separator
does. -/
def splitCharList (c : Char) : List Char → List (List Char)
  | [] => [[]]
  | x :: xs =>
    match splitCharList c xs with
    | [] => if x = c then [[], []] else [[x]]
    | y :: ys => if x = c then [] :: y :: ys else (x :: y) :: ys

/-- `descriptor.split(':')`: every occurrence of `':'` separates a field. -/
def pySplitColon (s : String) : List String :=
  (splitCharList ':' s.data).map fun l => ⟨l⟩

/-- The body of the `for script in sorted(scripts)` loop:
`(module, obj) = descriptor.split(':')` (a `ValueError` unless the split
yields exactly two parts), then a `TarInfo` named
`os.path.join('usr/local/bin', script)` with `mode = 0o777` and the
interpolated shim as content. -/
def Python.mkShim (script descriptor : String) : Except PyErr TarEntry :=
  match pySplitColon descriptor with
  | [module, obj] =>
    let content := shimContent module obj
    .ok { name := pyJoin "usr/local/bin" script
          size := content.length
          mode := 511
          mtime := 0
          content := content }
  | _ => .error (.valueError "too many values to unpack")

/-- Sequential effectful mapping, as the Python `for` loops over wheel
scripts and wheels behave: the first raised exception aborts the whole
loop. -/
def mapE (f : α → Except PyErr β) : List α → Except PyErr (List β)
  | [] => .ok []
  | x :: xs => do
    let y ← f x
    let ys ← mapE f xs
    .ok (y :: ys)

/-- Lexicographic code-point order on character lists: Python's string
comparison. -/
def charListLe : List Char → List Char → Bool
  | [], _ => true
  | _ :: _, [] => false
  | c :: cs, d :: ds =>
    if c.val.toNat < d.val.toNat then true
    else if d.val.toNat < c.val.toNat then false
    else charListLe cs ds

/-- `a <= b` on Python strings (code-point lexicographic). -/
def strLe (a b : String) : Bool :=
  charListLe a.data b.data

/-- Insertion of a string into an ascending list, the auxiliary step of
the executable model of Python's builtin `sorted`. -/
def insertAsc (s : String) : List String → List String
  | [] => [s]
  | t :: ts => if strLe s t then s :: t :: ts else t :: insertAsc s ts

/-- Ascending lexicographic sort (insertion sort), the executable model of
Python's builtin `sorted` on strings; on the distinct keys of a dict this
is exactly the order `sorted(scripts)` iterates. -/
def sortStrings : List String → List String
  | [] => []
  | s :: ss => insertAsc s (sortStrings ss)

/-- `sorted(scripts)`: Python's `sorted` over the keys of the script
dict, ascending lexicographic string order. -/
def sortedKeys (scripts : List (String × String)) : List String :=
  sortStrings (scripts.map Prod.fst)

/-- `Python._AddWHLScripts` from the parsed metadata onward: no
`wrap_console` table means no entries; otherwise the scripts are created
in `sorted(scripts)` order, each from its declared `module:obj`
descriptor (`scripts[script]`, total on the dict's own keys). -/
def Python.addWHLScripts (whl : Whl) : Except PyErr (List TarEntry) :=
  match whl.scripts with
  | none => .ok []
  | some scripts =>
    mapE (fun script => Python.mkShim script ((scripts.lookup script).getD ""))
      (sortedKeys scripts)

/-- One iteration of the dependency-layer loop in
`Python.CreatePackageBase`: `_AddWHLFiles(whl, out)` then
`_AddWHLScripts(whl, out)`. -/
def Python.addWhl (whl : Whl) : Except PyErr (List TarEntry) := do
  let ss ← Python.addWHLScripts whl
  .ok (Python.addWHLFiles whl ++ ss)

/-- The tar entries of the dependency layer: all wheels in resolver order,
each contributing its files then its scripts. -/
def Python.buildDepEntries (whls : List Whl) : Except PyErr (List TarEntry) := do
  let ls ← mapE Python.addWhl whls
  .ok ls.flatten

/-- The dependency-layer blob built by `Python.CreatePackageBase` on a
cache miss: the entries above inside a `w:gz` archive opened at wall-clock
second `now`. -/
def Python.BuildDepLayer (whls : List Whl) (now : Nat) : Except PyErr GzipBlob :=
  (Python.buildDepEntries whls).map fun es => { mtime := now, entries := es }

deriving instance DecidableEq for Except

/-- The observable outcome of one `CreatePackageBase` call: the returned
image or propagated exception, the registry state afterwards, and how
often the Package Resolver (`pip wheel`, via `_ResolveWHLs`) and
`cache.Store` were invoked. -/
structure BuildOutcome where
  result : Except PyErr Image
  cacheAfter : RegState
  resolverCalls : Nat
  storeCalls : Nat
deriving DecidableEq, Repr

/-- `Python.CreatePackageBase(base_image, cache)`: reads
`requirements.txt` (a missing file is the context collaborator's
`KeyError`), hashes it with `H` (= `hashlib.sha256(...).hexdigest()`),
consults the cache and returns a hit unchanged; on a miss it calls the
resolver `resolve` (= `_ResolveWHLs`, i.e. `pip wheel`, whose failure is
`subprocess.CalledProcessError`), builds the dependency layer, appends it
to the base (`append.Layer`), stores the appended image, and returns a
freshly appended image. -/
def Python.CreatePackageBase (H : String → String)
    (resolve : String → Except PyErr (List Whl)) (ctx : Ctx) (r : Registry)
    (st : RegState) (base_image : Image) (now : Nat) : BuildOutcome :=
  match ctx.GetFile "requirements.txt" with
  | none =>
    { result := .error (.keyError "requirements.txt")
      cacheAfter := st, resolverCalls := 0, storeCalls := 0 }
  | some descriptor =>
    let checksum := H descriptor
    match Registry.Get r H st base_image PYTHON_NAMESPACE checksum with
    | some hit =>
      { result := .ok hit, cacheAfter := st, resolverCalls := 0, storeCalls := 0 }
    | none =>
      match resolve descriptor with
      | .error e =>
        { result := .error e, cacheAfter := st, resolverCalls := 1, storeCalls := 0 }
      | .ok whls =>
        match Python.BuildDepLayer whls now with
        | .error e =>
          { result := .error e, cacheAfter := st, resolverCalls := 1, storeCalls := 0 }
        | .ok layer =>
          let pushed := Registry.Store r H st base_image PYTHON_NAMESPACE checksum
            (Image.appendLayer base_image layer)
          { result := .ok (Image.appendLayer base_image layer)
            cacheAfter := pushed.1, resolverCalls := 1, storeCalls := 1 }

/-- `Node.CreatePackageBase`: unconditionally
`raise Exception('npm install is not implemented')`; the cache is never
touched. -/
def Node.CreatePackageBase (base_image : Image) (st : RegState) : BuildOutcome :=
  { result := .error (.exception "npm install is not implemented")
    cacheAfter := st, resolverCalls := 0, storeCalls := 0 }

/-- The strategy value produced by the factory, bound to its context. -/
inductive Strategy where
  | justApp : Ctx → Strategy
  | python : Ctx → Strategy
  | node : Ctx → Strategy
deriving DecidableEq, Repr

/-- `Node.__init__`: its body is `super(Python, self).__init__(ctx)`, but
`self` is a `Node`, which is not an instance or subtype of the sibling
class `Python`, so Python 2 raises `TypeError` before any `Node` value
exists. -/
def Node.init (ctx : Ctx) : Except PyErr Strategy :=
  .error (.typeError "super(type, obj): obj must be an instance or subtype of type")

/-- The factory `From(ctx)`: `requirements.txt` selects `Python`,
otherwise `package.json` attempts `Node(ctx)` (whose constructor raises,
see `Node.init`), otherwise `JustApp`. -/
def From (ctx : Ctx) : Except PyErr Strategy :=
  if ctx.Contains "requirements.txt" then .ok (.python ctx)
  else if ctx.Contains "package.json" then Node.init ctx
  else .ok (.justApp ctx)

/-- `Python.__enter__`: `self._tempdir = tempfile.mkdtemp()` allocates a
fresh temporary directory (modelled by its identifier `dir`) on top of the
already-live working resources. -/
def Python.enterScope (dir : Nat) (alive : List Nat) : List Nat :=
  dir :: alive

/-- `Base.__exit__` (the only `__exit__` in `builder.py`, inherited by
every variant on every exit path, exceptional or not): its body is
`pass`, so the set of live working resources is returned unchanged. -/
def Base.exitScope (alive : List Nat) : List Nat :=
  alive

/-- `JustApp.__enter__` / `Node.__enter__`: `return self`, no resource
acquired. -/
def JustApp.enterScope (alive : List Nat) : List Nat :=
  alive

/-! ### Helper lemmas -/

theorem charListLe_total (l1 l2 : List Char) :
    charListLe l1 l2 = true ∨ charListLe l2 l1 = true := by
  induction l1 generalizing l2 with
  | nil => exact .inl rfl
  | cons c cs ih =>
    cases l2 with
    | nil => exact .inr rfl
    | cons d ds =>
      rw [charListLe, charListLe]
      rcases Nat.lt_trichotomy c.val.toNat d.val.toNat with h | h | h
      · exact .inl (by rw [if_pos h])
      · rw [if_neg (by omega), if_neg (by omega), if_neg (by omega),
          if_neg (by omega)]
        exact ih ds
      · exact .inr (by rw [if_pos h])

theorem charListLe_trans {l1 l2 l3 : List Char}
    (h12 : charListLe l1 l2 = true) (h23 : charListLe l2 l3 = true) :
    charListLe l1 l3 = true := by
  induction l1 generalizing l2 l3 with
  | nil => rfl
  | cons c cs ih =>
    cases l2 with
    | nil => exact absurd h12 (by rw [charListLe]; simp)
    | cons d ds =>
      cases l3 with
      | nil => exact absurd h23 (by rw [charListLe]; simp)
      | cons e es =>
        rw [charListLe] at h12 h23 ⊢
        rcases Nat.lt_trichotomy c.val.toNat d.val.toNat with hcd | hcd | hcd
        · rcases Nat.lt_trichotomy d.val.toNat e.val.toNat with hde | hde | hde
          · rw [if_pos (by omega)]
          · rw [if_pos (by omega)]
          · rw [if_neg (by omega), if_pos hde] at h23
            exact absurd h23 (by simp)
        · rcases Nat.lt_trichotomy d.val.toNat e.val.toNat with hde | hde | hde
          · rw [if_pos (by omega)]
          · rw [if_neg (by omega), if_neg (by omega)] at h12 h23 ⊢
            exact ih h12 h23
          · rw [if_neg (by omega), if_pos hde] at h23
            exact absurd h23 (by simp)
        · rw [if_neg (by omega), if_pos hcd] at h12
          exact absurd h12 (by simp)

theorem strLe_total (a b : String) : strLe a b = true ∨ strLe b a = true :=
  charListLe_total a.data b.data

theorem strLe_trans {a b c : String} (h1 : strLe a b = true)
    (h2 : strLe b c = true) : strLe a c = true :=
  charListLe_trans h1 h2

theorem mem_insertAsc {x s : String} {l : List String} :
    x ∈ insertAsc s l ↔ x = s ∨ x ∈ l := by
  induction l with
  | nil => simp [insertAsc]
  | cons t ts ih =>
    by_cases h : strLe s t = true <;>
      simp [insertAsc, h, ih] <;> tauto

theorem pairwise_insertAsc {s : String} {l : List String}
    (h : l.Pairwise (strLe · · = true)) :
    (insertAsc s l).Pairwise (strLe · · = true) := by
  induction l with
  | nil => simp [insertAsc]
  | cons t ts ih =>
    rcases List.pairwise_cons.mp h with ⟨ht, hts⟩
    by_cases hst : strLe s t = true
    · rw [insertAsc, if_pos hst]
      refine List.pairwise_cons.mpr ⟨?_, h⟩
      intro x hx
      rcases List.mem_cons.mp hx with rfl | hx
      · exact hst
      · exact strLe_trans hst (ht x hx)
    · rw [insertAsc, if_neg hst]
      refine List.pairwise_cons.mpr ⟨?_, ih hts⟩
      intro x hx
      rcases mem_insertAsc.mp hx with rfl | hx
      · exact (strLe_total _ t).resolve_left hst
      · exact ht x hx

theorem pairwise_sortStrings (l : List String) :
    (sortStrings l).Pairwise (strLe · · = true) := by
  induction l with
  | nil => exact List.Pairwise.nil
  | cons s ss ih => exact pairwise_insertAsc ih

theorem mapE_ok_forall₂ {α β : Type} {f : α → Except PyErr β} {xs : List α}
    {ys : List β} (h : mapE f xs = .ok ys) :
    List.Forall₂ (fun x y => f x = .ok y) xs ys := by
  induction xs generalizing ys with
  | nil =>
    rw [mapE] at h
    cases h
    exact .nil
  | cons x xs ih =>
    rw [mapE] at h
    cases hfx : f x with
    | error e => rw [hfx] at h; exact absurd h (by simp [Bind.bind, Except.bind])
    | ok y =>
      rw [hfx] at h
      cases hmx : mapE f xs with
      | error e => rw [hmx] at h; exact absurd h (by simp [Bind.bind, Except.bind])
      | ok ys' =>
        rw [hmx] at h
        simp only [Bind.bind, Except.bind, Except.ok.injEq] at h
        exact h ▸ List.Forall₂.cons hfx (ih hmx)

theorem mkShim_ok {script descriptor : String} {e : TarEntry}
    (h : Python.mkShim script descriptor = .ok e) :
    ∃ m o, pySplitColon descriptor = [m, o] ∧
      e = { name := pyJoin "usr/local/bin" script
            size := (shimContent m o).length
            mode := 511
            mtime := 0
            content := shimContent m o } := by
  rw [Python.mkShim] at h
  rcases hsp : pySplitColon descriptor with _ | ⟨m, _ | ⟨o, _ | ⟨z, zs⟩⟩⟩ <;>
    rw [hsp] at h
  · exact absurd h (by simp)
  · exact absurd h (by simp)
  · exact ⟨m, o, rfl, (Except.ok.injEq _ _).mp h |>.symm⟩
  · exact absurd h (by simp)

/-! ### Claim theorems -/

/-- Claim C1 (code bug): `BuildAppLayer` is claimed to yield byte-identical
compressed output across two calls on an unchanged Source Context, with no
embedded wall-clock timestamps, and likewise for the dependency-layer
bytes from a fixed resolver result.  The code opens both archives with
`tarfile.open(mode='w:gz')`, whose `gzip.GzipFile` embeds
`int(time.time())` in the gzip member header: two builds of the very same
context (here `{main.py: print}`, and the dependency layer of a fixed
empty resolver result) at wall-clock seconds 0 and 1 produce different
bytes. -/
theorem C1_gzip_header_embeds_wall_clock :
    JustApp.BuildAppLayer ⟨[("main.py", "print")]⟩ 0 ≠
      JustApp.BuildAppLayer ⟨[("main.py", "print")]⟩ 1 ∧
    Python.BuildDepLayer [] 0 ≠ Python.BuildDepLayer [] 1 := by
  exact ⟨by decide, by decide⟩

/-- Claim C4 (confirmed): `Registry._tag` hashes the fingerprint
`checksum` alone — the base-image digest is only a TODO comment — so the
computed location, and with it the cache entry addressed by `Get` and
`Store`, is the same for any two base images once repository, namespace
and checksum are fixed. -/
theorem C4_tag_independent_of_base_image (r : Registry) (H : String → String)
    (st : RegState) (b1 b2 : Image) (ns checksum : String) (v : Image) :
    Registry.tag r H b1 ns checksum = Registry.tag r H b2 ns checksum ∧
    Registry.Get r H st b1 ns checksum = Registry.Get r H st b2 ns checksum ∧
    Registry.Store r H st b1 ns checksum v = Registry.Store r H st b2 ns checksum v :=
  ⟨rfl, rfl, rfl⟩

/-- Claim C5 (confirmed): `Node.CreatePackageBase` unconditionally raises
`Exception('npm install is not implemented')` for every base image and
cache state, never returning an image and leaving the cache untouched. -/
theorem C5_node_create_package_base_always_raises (base_image : Image)
    (st : RegState) :
    Node.CreatePackageBase base_image st =
      { result := .error (.exception "npm install is not implemented")
        cacheAfter := st, resolverCalls := 0, storeCalls := 0 } ∧
    ∀ img : Image, (Node.CreatePackageBase base_image st).result ≠ .ok img :=
  ⟨rfl, fun _ h => Except.noConfusion h⟩

/-- Claim C6 (code bug): the factory `From` does return the `Python`
strategy whenever `requirements.txt` is present (even with `package.json`
alongside) and the passthrough `JustApp` when no marker matches, but on a
context holding `package.json` without `requirements.txt` it never returns
a bound `Node` strategy: `Node.__init__` runs
`super(Python, self).__init__(ctx)` with `self` a `Node`, which is not an
instance of the sibling class `Python`, so the construction raises
`TypeError` instead. -/
theorem C6_from_node_branch_raises_type_error :
    From ⟨[("package.json", "")]⟩ =
      .error (.typeError "super(type, obj): obj must be an instance or subtype of type") ∧
    From ⟨[("requirements.txt", ""), ("package.json", "")]⟩ =
      .ok (.python ⟨[("requirements.txt", ""), ("package.json", "")]⟩) ∧
    From ⟨[("app.py", "")]⟩ = .ok (.justApp ⟨[("app.py", "")]⟩) := by
  refine ⟨by decide, by decide, by decide⟩

/-- Claim C10 (code bug): the lifecycle is claimed to release every
working resource on every exit path, but `Python.__enter__` allocates a
temporary directory (`tempfile.mkdtemp()`, with a `TODO` to clean up)
while the only `__exit__` in `builder.py`, `Base.__exit__`, is `pass`:
after entering and exiting a `Python` builder the directory is still
live. -/
theorem C10_python_tempdir_never_released :
    Base.exitScope (Python.enterScope 0 []) = [0] ∧
    Base.exitScope (Python.enterScope 0 []) ≠ ([] : List Nat) := by
  exact ⟨rfl, by decide⟩

/-- Claim C2 (confirmed): whenever the `requirements.txt` descriptor of
the context already has a cache entry under
`(base image, python namespace, sha256(descriptor))`, `Python.
CreatePackageBase` returns the cached image unchanged and performs zero
resolver invocations (no `pip wheel` call) and zero stores. -/
theorem C2_cache_hit_skips_resolver (H : String → String)
    (resolve : String → Except PyErr (List Whl)) (ctx : Ctx) (r : Registry)
    (st : RegState) (base_image hit : Image) (now : Nat) (d : String)
    (hreq : ctx.GetFile "requirements.txt" = some d)
    (hhit : Registry.Get r H st base_image PYTHON_NAMESPACE (H d) = some hit) :
    Python.CreatePackageBase H resolve ctx r st base_image now =
      { result := .ok hit, cacheAfter := st, resolverCalls := 0, storeCalls := 0 } := by
  rw [Python.CreatePackageBase, hreq]
  simp only [hhit]

/-- Witness for C2 at a concrete input: a context declaring
`flask==1.0`, an identity checksum function, and a registry state holding
the matching tag. -/
theorem C2_cache_hit_skips_resolver_witness :
    Python.CreatePackageBase id (fun _ => .error (.calledProcessError "pip wheel"))
        ⟨[("requirements.txt", "flask==1.0")]⟩ ⟨"repo", 1, []⟩
        [("repo/python-requirements-cache:flask==1.0", .base "cached")]
        (.base "ubuntu") 5 =
      { result := .ok (.base "cached")
        cacheAfter := [("repo/python-requirements-cache:flask==1.0", .base "cached")]
        resolverCalls := 0, storeCalls := 0 } :=
  C2_cache_hit_skips_resolver id _ _ _ _ _ _ 5 "flask==1.0" (by decide) (by decide)

/-- Counterexample to claim C3 as stated: `Registry.Store` does not
append-and-return — its `value` argument is an image the caller has
already appended (the append happens in `Python.CreatePackageBase` via
`append.Layer`), and the method body has no `return` statement, so the
call evaluates to `None` rather than the stored image, even when the
stored value is exactly the base with the layer appended. -/
theorem C3_store_returns_none_not_image :
    (Registry.Store ⟨"repo", 1, []⟩ id [] (.base "ubuntu") "ns" "c"
        (Image.appendLayer (.base "ubuntu") ⟨0, []⟩)).2 ≠
      some (Image.appendLayer (.base "ubuntu") ⟨0, []⟩) := by
  decide

/-- Claim C3 (corrected): `Registry.Store` pushes the caller-supplied
image value to the location computed from (repository, namespace,
checksum) and returns `None`; an immediate `Registry.Get` of the same
`(base, namespace, checksum)` returns exactly the stored value — in
particular, when the caller stores the base with the dependency layer
appended, `Get` yields an image equal to the base with that layer
appended. -/
theorem C3_store_then_get_roundtrip (r : Registry) (H : String → String)
    (st : RegState) (base_image : Image) (ns checksum : String) (value : Image) :
    (Registry.Store r H st base_image ns checksum value).2 = none ∧
    Registry.Get r H (Registry.Store r H st base_image ns checksum value).1
      base_image ns checksum = some value := by
  refine ⟨rfl, ?_⟩
  simp [Registry.Get, Registry.Store, List.lookup]

/-- Claim C8 (confirmed): for a Source Context whose listed paths are
relative (the context collaborator's contract), the archive built by
`BuildAppLayer` holds one entry per context file, in exactly `ListFiles`
order, each named `app/` ++ its relative path, with declared size equal to
the byte length of that file's content. -/
theorem C8_app_layer_entries (ctx : Ctx) (now : Nat)
    (hrel : ∀ n ∈ ctx.ListFiles, strStartsWith n "/" = false) :
    (JustApp.BuildAppLayer ctx now).entries =
      ctx.ListFiles.map fun name =>
        { name := "app/" ++ name
          size := ((ctx.GetFile name).getD "").length
          mode := 420
          mtime := 0
          content := (ctx.GetFile name).getD "" } := by
  rw [JustApp.BuildAppLayer]
  refine List.map_congr_left fun n hn => ?_
  rw [pyJoin, if_neg (by simp [hrel n hn]), if_neg (by decide)]
  rfl

/-- Witness for C8 at a concrete two-file context. -/
theorem C8_app_layer_entries_witness :
    (JustApp.BuildAppLayer ⟨[("main.py", "print"), ("lib/u.py", "x")]⟩ 7).entries =
      (Ctx.ListFiles ⟨[("main.py", "print"), ("lib/u.py", "x")]⟩).map fun name =>
        { name := "app/" ++ name
          size := ((Ctx.GetFile ⟨[("main.py", "print"), ("lib/u.py", "x")]⟩ name).getD "").length
          mode := 420
          mtime := 0
          content := (Ctx.GetFile ⟨[("main.py", "print"), ("lib/u.py", "x")]⟩ name).getD "" } :=
  C8_app_layer_entries ⟨[("main.py", "print"), ("lib/u.py", "x")]⟩ 7 (by decide)

/-- Claim C9 (confirmed): on a cache miss, if the resolver fails
(`pip wheel` raising `CalledProcessError`) or the dependency layer cannot
be fully constructed (a wheel whose script descriptor is malformed), the
exception propagates out of `Python.CreatePackageBase`, `Store` is never
invoked, and the cache is left exactly as it was; `Store` runs only on the
all-success path. -/
theorem C9_no_store_on_failed_layer (H : String → String)
    (resolve : String → Except PyErr (List Whl)) (ctx : Ctx) (r : Registry)
    (st : RegState) (base_image : Image) (now : Nat) (d : String) (e : PyErr)
    (hreq : ctx.GetFile "requirements.txt" = some d)
    (hmiss : Registry.Get r H st base_image PYTHON_NAMESPACE (H d) = none)
    (hfail : resolve d = .error e ∨
      ∃ whls, resolve d = .ok whls ∧ Python.BuildDepLayer whls now = .error e) :
    (Python.CreatePackageBase H resolve ctx r st base_image now).storeCalls = 0 ∧
    (Python.CreatePackageBase H resolve ctx r st base_image now).cacheAfter = st ∧
    (Python.CreatePackageBase H resolve ctx r st base_image now).result = .error e := by
  rw [Python.CreatePackageBase, hreq]
  simp only [hmiss]
  rcases hfail with hres | ⟨whls, hres, hlayer⟩
  · simp [hres]
  · simp [hres, hlayer]

/-- Witness for C9 at a concrete input: empty cache, resolver failing as
`pip wheel` does. -/
theorem C9_no_store_on_failed_layer_witness :
    (Python.CreatePackageBase id (fun _ => .error (.calledProcessError "pip wheel"))
        ⟨[("requirements.txt", "flask==1.0")]⟩ ⟨"repo", 1, []⟩ [] (.base "ubuntu") 5).storeCalls = 0 ∧
    (Python.CreatePackageBase id (fun _ => .error (.calledProcessError "pip wheel"))
        ⟨[("requirements.txt", "flask==1.0")]⟩ ⟨"repo", 1, []⟩ [] (.base "ubuntu") 5).cacheAfter = [] ∧
    (Python.CreatePackageBase id (fun _ => .error (.calledProcessError "pip wheel"))
        ⟨[("requirements.txt", "flask==1.0")]⟩ ⟨"repo", 1, []⟩ [] (.base "ubuntu") 5).result =
      .error (.calledProcessError "pip wheel") :=
  C9_no_store_on_failed_layer id _ _ _ _ _ 5 "flask==1.0" (.calledProcessError "pip wheel")
    (by decide) (by decide) (.inl rfl)

set_option maxRecDepth 8000 in
/-- Counterexample to claim C7 as stated: for the wheel metadata
declaring the single entry point `a = mod:main`, the generated shim is
emitted (sorted, executable, with `from mod import main` interpolated),
but the claim's "invokes the resolved module/callable" is false — the
template's call line is the literal `sys.exit(run())`, so the shim never
calls `main()`. -/
theorem C7_shim_calls_run_not_declared_callable :
    Python.addWHLScripts ⟨"mod-1.0-py2-none-any.whl", [], some [("a", "mod:main")]⟩ =
      .ok [{ name := "usr/local/bin/a"
             size := (shimContent "mod" "main").length
             mode := 511
             mtime := 0
             content := shimContent "mod" "main" }] ∧
    ¬ List.IsInfix "sys.exit(main())".data (shimContent "mod" "main").data ∧
    List.IsInfix "sys.exit(run())".data (shimContent "mod" "main").data := by
  refine ⟨by decide, by decide, by decide⟩

/-- Claim C7 (corrected): for every wheel whose parsed metadata declares
console scripts, the generated shims appear in ascending sorted order of
script name (`{"b": ..., "a": ...}` yields `a` before `b`), each carries
mode `0o777` (executable bits set) and declared size equal to its content
length, and each embeds the resolved `module:obj` of its script through
the interpolated `from module import obj` template — which, however,
always invokes the fixed name `run()` rather than the declared callable
(see the counterexample). -/
theorem C7_scripts_sorted_executable_embed (whl : Whl)
    (scripts : List (String × String)) (es : List TarEntry)
    (hs : whl.scripts = some scripts)
    (hok : Python.addWHLScripts whl = .ok es) :
    (sortedKeys scripts).Pairwise (strLe · · = true) ∧
    List.Forall₂ (fun k e => ∃ m o,
        pySplitColon ((scripts.lookup k).getD "") = [m, o] ∧
        e = { name := pyJoin "usr/local/bin" k
              size := (shimContent m o).length
              mode := 511
              mtime := 0
              content := shimContent m o })
      (sortedKeys scripts) es := by
  constructor
  · exact pairwise_sortStrings _
  · rw [Python.addWHLScripts, hs] at hok
    exact (mapE_ok_forall₂ hok).imp fun k e hx => mkShim_ok hx

set_option maxRecDepth 8000 in
/-- Witness for C7 at the spec's own example of scripts named `b` and
`a`: the two shims come out in the order `a`, `b`. -/
theorem C7_scripts_sorted_executable_embed_witness :
    (sortedKeys [("b", "m2:g"), ("a", "m1:f")]).Pairwise (strLe · · = true) ∧
    List.Forall₂ (fun (k : String) (e : TarEntry) => ∃ m o,
        pySplitColon (([("b", "m2:g"), ("a", "m1:f")].lookup k).getD "") = [m, o] ∧
        e = { name := pyJoin "usr/local/bin" k
              size := (shimContent m o).length
              mode := 511
              mtime := 0
              content := shimContent m o })
      (sortedKeys [("b", "m2:g"), ("a", "m1:f")])
      [{ name := "usr/local/bin/a"
         size := (shimContent "m1" "f").length
         mode := 511
         mtime := 0
         content := shimContent "m1" "f" },
       { name := "usr/local/bin/b"
         size := (shimContent "m2" "g").length
         mode := 511
         mtime := 0
         content := shimContent "m2" "g" }] :=
  C7_scripts_sorted_executable_embed
    ⟨"x-1.0-py2-none-any.whl", [], some [("b", "m2:g"), ("a", "m1:f")]⟩
    [("b", "m2:g"), ("a", "m1:f")]
    [{ name := "usr/local/bin/a"
       size := (shimContent "m1" "f").length
       mode := 511
       mtime := 0
       content := shimContent "m1" "f" },
     { name := "usr/local/bin/b"
       size := (shimContent "m2" "g").length
       mode := 511
       mtime := 0
       content := shimContent "m2" "g" }] rfl (by decide)

end OneBuild
